import Mathlib

/-
  Shallow embedding of the TwitRec recording supervisor
  (src/twitrec/recorder/stream_recorder.py) and of the background channel
  monitor loop (src/main.py, TwitRec._background_monitor).

  External effects are modelled by explicit oracle parameters:
  - process liveness queries (Popen.poll) become a function
    poll : Nat -> Option Int from a process id to its exit code, none
    meaning the process is still running;
  - launching the capture subprocess becomes a LaunchEnv describing which
    of the launch-time outcomes happens (streamlink found on PATH, spawn
    result, poll result right after the start-up sleep);
  - stopping becomes a StopOutcome oracle per process id (graceful exit
    within the wait timeout, TimeoutExpired followed by SIGKILL, or any
    other exception raised while signalling or waiting);
  - wall-clock time (datetime.now) becomes an explicit Clock record
    holding the already-formatted date, time and unix-timestamp strings.
-/

namespace TwitRec

/-- Fuelled scanner behind replaceL. Each step consumes at least one
character of the subject string and one unit of fuel, so fuel equal to
the length of the subject always suffices; the structural recursion on
the fuel keeps the function kernel-reducible. -/
def replaceAux (old new : List Char) : Nat → List Char → List Char
  | 0, s => s
  | _ + 1, [] => []
  | fuel + 1, c :: rest =>
    if old ≠ [] ∧ old.isPrefixOf (c :: rest) then
      new ++ replaceAux old new fuel (rest.drop (old.length - 1))
    else
      c :: replaceAux old new fuel rest

/-- Left-to-right, non-overlapping replacement of every occurrence of a
nonempty pattern in a character list: the semantics of the Python string
method s.replace(old, new) used by StreamRecorder._generate_filename.
After a match the scan resumes past the inserted replacement, so the
replacement text itself is never rescanned. -/
def replaceL (old new s : List Char) : List Char :=
  replaceAux old new s.length s

/-- Python str.replace lifted to Lean strings. -/
def pyReplace (s old new : String) : String :=
  List.asString (replaceL old.data new.data s.data)

/-- The wall clock at one instant, already rendered through the strftime
formats used by the recorder: date as YYYY-MM-DD, time as HH-MM-SS,
timestamp as the integral unix time, plus an abstract tick counter used
for the session's start_time field. -/
structure Clock where
  date : String
  time : String
  timestamp : String
  now : Nat
deriving DecidableEq

/-- StreamRecorder._generate_filename: substitute the four recognized
placeholders into the template by sequential whole-string replacement, in
the insertion order of the replacements dict:
streamer, then date, then time, then timestamp. -/
def _generate_filename (clock : Clock) (streamer template : String) : String :=
  pyReplace
    (pyReplace
      (pyReplace
        (pyReplace template "{streamer}" streamer)
        "{date}" clock.date)
      "{time}" clock.time)
    "{timestamp}" clock.timestamp

/-- One entry of StreamRecorder.active_recordings: the dict value built in
start_recording. -/
structure RecordingSession where
  process : Nat
  output_path : String
  log_path : String
  start_time : Nat
  quality : String
deriving DecidableEq

/-- The active_recordings dict, as an insertion-ordered association list
with (by construction) at most one entry per channel key. -/
abbrev Registry := List (String × RecordingSession)

/-- Python dict membership test (streamer in self.active_recordings). -/
def containsKey (reg : Registry) (k : String) : Bool :=
  reg.any (fun kv => kv.1 == k)

/-- Python dict lookup (self.active_recordings[streamer]). -/
def lookupKey (reg : Registry) (k : String) : Option RecordingSession :=
  (reg.find? (fun kv => kv.1 == k)).map Prod.snd

/-- Python dict deletion (del self.active_recordings[streamer]). -/
def eraseKey (reg : Registry) (k : String) : Registry :=
  reg.filter (fun kv => kv.1 != k)

/-- Number of entries registered under a key. -/
def countKey (reg : Registry) (k : String) : Nat :=
  (reg.filter (fun kv => kv.1 == k)).length

/-- The StreamRecorder object: the two target directories and the mutable
active_recordings registry. -/
structure StreamRecorder where
  recordings_dir : String
  logs_dir : String
  active_recordings : Registry
deriving DecidableEq

/-- Result of subprocess.Popen in start_recording: either a running child
with a pid, or one of the exceptions the surrounding try block catches. -/
inductive SpawnResult where
  | ok (pid : Nat)
  | fileNotFound
  | permissionDenied
  | otherError
deriving DecidableEq

/-- Everything the environment decides during one start_recording call:
what shutil.which("streamlink") returns, how Popen behaves, and what
process.poll() reports right after the two-second start-up sleep. -/
structure LaunchEnv where
  streamlink_path : Option String
  spawn : SpawnResult
  poll_after_start : Option Int
deriving DecidableEq

/-- The session record registered by a successful start_recording call. -/
def launchSession (r : StreamRecorder) (streamer quality template : String)
    (clock : Clock) (pid : Nat) : RecordingSession :=
  { process := pid
    output_path := r.recordings_dir ++ "/" ++ _generate_filename clock streamer template
    log_path := r.logs_dir ++ "/" ++ streamer ++ "_" ++ clock.date ++ "_" ++ clock.time ++ ".log"
    start_time := clock.now
    quality := quality }

/-- StreamRecorder.start_recording. Mirrors the control flow of the
source: an existing session for the channel fails fast; a missing
streamlink executable fails before spawning; FileNotFoundError,
PermissionError and any other exception from the try block are caught and
turned into false; a process that has already exited when polled after
the start-up sleep fails; otherwise the session is registered and the
call returns true. -/
def start_recording (r : StreamRecorder) (streamer : String)
    (quality : String) (filename_template : String)
    (env : LaunchEnv) (clock : Clock) : Bool × StreamRecorder :=
  if containsKey r.active_recordings streamer then
    (false, r)
  else
    match env.streamlink_path with
    | none => (false, r)
    | some _ =>
      match env.spawn with
      | .fileNotFound => (false, r)
      | .permissionDenied => (false, r)
      | .otherError => (false, r)
      | .ok pid =>
        match env.poll_after_start with
        | some _ => (false, r)
        | none =>
          (true,
            { r with active_recordings :=
                r.active_recordings ++
                  [(streamer, launchSession r streamer quality filename_template clock pid)] })

/-- How one stop attempt behaves at the OS level: the process group exits
within the 10-unit wait timeout, or the wait raises TimeoutExpired and
the group is SIGKILLed, or signalling or waiting raises some other
exception (for example the process group no longer exists). -/
inductive StopOutcome where
  | graceful
  | timeout
  | error
deriving DecidableEq

/-- The outcome of StreamRecorder.stop_recording: the boolean returned to
the caller, whether the forceful-kill diagnostic path was taken, and the
recorder state afterwards. -/
structure StopResult where
  ok : Bool
  forced : Bool
  state : StreamRecorder
deriving DecidableEq

/-- StreamRecorder.stop_recording. A missing session returns false; a
graceful exit within the timeout deletes the session and returns true; a
TimeoutExpired escalates to SIGKILL of the process group, still deletes
the session and returns true (logged as a forced stop); any other
exception is caught, returns false and leaves the session registered. -/
def stop_recording (outcome : Nat → StopOutcome) (r : StreamRecorder)
    (streamer : String) : StopResult :=
  match lookupKey r.active_recordings streamer with
  | none => { ok := false, forced := false, state := r }
  | some session =>
    match outcome session.process with
    | .graceful =>
      { ok := true, forced := false
        state := { r with active_recordings := eraseKey r.active_recordings streamer } }
    | .timeout =>
      { ok := true, forced := true
        state := { r with active_recordings := eraseKey r.active_recordings streamer } }
    | .error =>
      { ok := false, forced := false, state := r }

/-- StreamRecorder.is_recording: false when no session is registered;
when the tracked process has exited (poll returns an exit code) the stale
session is deleted and the call returns false; otherwise true. -/
def is_recording (poll : Nat → Option Int) (r : StreamRecorder)
    (streamer : String) : Bool × StreamRecorder :=
  match lookupKey r.active_recordings streamer with
  | none => (false, r)
  | some session =>
    match poll session.process with
    | some _ =>
      (false, { r with active_recordings := eraseKey r.active_recordings streamer })
    | none => (true, r)

/-- StreamRecorder.get_active_recordings: first collect every streamer
whose process has exited, then delete those entries, then return a copy
of the remaining registry. -/
def get_active_recordings (poll : Nat → Option Int) (r : StreamRecorder) :
    Registry × StreamRecorder :=
  let finished :=
    (r.active_recordings.filter (fun kv => (poll kv.2.process).isSome)).map Prod.fst
  let remaining := finished.foldl (fun acc s => eraseKey acc s) r.active_recordings
  (remaining, { r with active_recordings := remaining })

/-- StreamRecorder.stop_all_recordings: snapshot the key list, then call
stop_recording on every key in order, regardless of individual results.
The second component records, for specification purposes, each attempted
key together with the boolean its stop call returned. -/
def stop_all_recordings (outcome : Nat → StopOutcome) (r : StreamRecorder) :
    StreamRecorder × List (String × Bool) :=
  let streamers := r.active_recordings.map Prod.fst
  streamers.foldl
    (fun acc s =>
      let res := stop_recording outcome acc.1 s
      (res.state, acc.2 ++ [(s, res.ok)]))
    (r, [])

/-- One supervisor call issued by the background monitor: the monitor
either asks the supervisor to start a recording with the configured
default quality or asks it to stop one. -/
inductive MonitorCall where
  | start (streamer quality : String)
  | stop (streamer : String)
deriving DecidableEq

/-- The collaborators and configuration one monitor pass reads: the
launch environment and clock handed to start_recording, the stop oracle,
the process poll oracle, the configured default quality and filename
template. -/
structure MonitorEnv where
  launch : LaunchEnv
  outcome : Nat → StopOutcome
  poll : Nat → Option Int
  default_quality : String
  filename_template : String
  clock : Clock

/-- The body of TwitRec._background_monitor for one watched streamer on
one tick: query liveness, then start if online and not recording, stop
if offline and recording, otherwise do nothing. Returns the updated
recorder and the list of start/stop supervisor calls issued. -/
def monitor_channel (live : Bool) (env : MonitorEnv) (r : StreamRecorder)
    (streamer : String) : StreamRecorder × List MonitorCall :=
  if live then
    let check := is_recording env.poll r streamer
    if check.1 then
      (check.2, [])
    else
      let res := start_recording check.2 streamer env.default_quality
        env.filename_template env.launch env.clock
      (res.2, [MonitorCall.start streamer env.default_quality])
  else
    let check := is_recording env.poll r streamer
    if check.1 then
      let res := stop_recording env.outcome check.2 streamer
      (res.state, [MonitorCall.stop streamer])
    else
      (check.2, [])

/-- One full polling tick of the background monitor: process every
watched streamer in list order, accumulating the supervisor calls. -/
def monitor_tick (live : String → Bool) (env : MonitorEnv)
    (r : StreamRecorder) (watched : List String) :
    StreamRecorder × List MonitorCall :=
  watched.foldl
    (fun acc s =>
      let step := monitor_channel (live s) env acc.1 s
      (step.1, acc.2 ++ step.2))
    (r, [])

/-- A run of the background monitor across successive ticks, one liveness
oracle per tick, collecting the supervisor calls issued on each tick. -/
def monitor_run (env : MonitorEnv) (watched : List String) :
    List (String → Bool) → StreamRecorder →
    StreamRecorder × List (List MonitorCall)
  | [], r => (r, [])
  | live :: rest, r =>
    let t := monitor_tick live env r watched
    let next := monitor_run env watched rest t.1
    (next.1, t.2 :: next.2)

/-- Control-flow state of the _background_monitor loop, at one-second
granularity: at the loop head (about to read self.running), inside
time.sleep(check_interval) with the given number of seconds remaining,
or exited. -/
inductive MonState where
  | top
  | sleeping (remaining : Nat)
  | halted
deriving DecidableEq

/-- One one-second step of the _background_monitor control loop. The
running flag is read only at the loop head; time.sleep(check_interval)
in the source is a single uninterruptible call, modelled as
check_interval unit steps during which the flag is not consulted. -/
def monStep (check_interval : Nat) (running : Bool) :
    MonState → MonState
  | .top => if running then .sleeping check_interval else .halted
  | .sleeping (n + 1) => .sleeping n
  | .sleeping 0 => .top
  | .halted => .halted

/-- Iterate the monitor control loop for a number of one-second steps
with a fixed value of the running flag. -/
def monRun (check_interval : Nat) (running : Bool) :
    Nat → MonState → MonState
  | 0, st => st
  | n + 1, st => monRun check_interval running n (monStep check_interval running st)

/-- Scanning the empty string leaves it unchanged at any fuel. -/
theorem replaceAux_nil (old new : List Char) (fuel : Nat) :
    replaceAux old new fuel [] = [] := by
  cases fuel <;> rfl

/-- The fuelled scanner does not depend on the fuel once the fuel covers
the length of the subject string. -/
theorem replaceAux_congr (old new : List Char) :
    ∀ (f1 : Nat) (s : List Char) (f2 : Nat), s.length ≤ f1 → s.length ≤ f2 →
      replaceAux old new f1 s = replaceAux old new f2 s := by
  intro f1
  induction f1 with
  | zero =>
    intro s f2 h1 _
    have hs : s = [] := List.eq_nil_of_length_eq_zero (Nat.le_zero.mp h1)
    subst hs
    rw [replaceAux_nil, replaceAux_nil]
  | succ f ih =>
    intro s f2 h1 h2
    cases s with
    | nil => rw [replaceAux_nil, replaceAux_nil]
    | cons c rest =>
      cases f2 with
      | zero => simp at h2
      | succ f2 =>
        simp only [replaceAux]
        by_cases hp : old ≠ [] ∧ old.isPrefixOf (c :: rest)
        · rw [if_pos hp, if_pos hp]
          have hd : (rest.drop (old.length - 1)).length ≤ rest.length := by
            simp only [List.length_drop]
            omega
          have hl : rest.length ≤ f := by simpa using h1
          have hl2 : rest.length ≤ f2 := by simpa using h2
          rw [ih (rest.drop (old.length - 1)) f2 (le_trans hd hl) (le_trans hd hl2)]
        · rw [if_neg hp, if_neg hp]
          have hl : rest.length ≤ f := by simpa using h1
          have hl2 : rest.length ≤ f2 := by simpa using h2
          rw [ih rest f2 hl hl2]

/-- Unfolding equation of replaceL on the empty string. -/
theorem replaceL_nil (old new : List Char) : replaceL old new [] = [] := rfl

/-- Unfolding equation of replaceL on a nonempty string: either the
pattern matches at the head and the scan resumes past it, or the head
character is kept and the scan moves one position right. -/
theorem replaceL_cons (old new : List Char) (c : Char) (rest : List Char) :
    replaceL old new (c :: rest) =
      if old ≠ [] ∧ old.isPrefixOf (c :: rest) then
        new ++ replaceL old new (rest.drop (old.length - 1))
      else
        c :: replaceL old new rest := by
  show replaceAux old new (rest.length + 1) (c :: rest) = _
  simp only [replaceAux]
  by_cases hp : old ≠ [] ∧ old.isPrefixOf (c :: rest)
  · rw [if_pos hp, if_pos hp]
    have hd : (rest.drop (old.length - 1)).length ≤ rest.length := by
      simp only [List.length_drop]
      omega
    rw [replaceAux_congr old new rest.length (rest.drop (old.length - 1))
      (rest.drop (old.length - 1)).length hd (le_refl _)]
    rfl
  · rw [if_neg hp, if_neg hp]
    rfl

/-- A successful dict lookup implies dict membership. -/
theorem containsKey_of_lookup {reg : Registry} {k : String}
    {s : RecordingSession} (h : lookupKey reg k = some s) :
    containsKey reg k = true := by
  simp only [lookupKey, Option.map_eq_some'] at h
  obtain ⟨kv, hfind, -⟩ := h
  have hmem := List.mem_of_find?_eq_some hfind
  have hp := List.find?_some hfind
  simp only [containsKey, List.any_eq_true]
  exact ⟨kv, hmem, hp⟩

/-- A key absent from the dict has zero registered entries. -/
theorem countKey_eq_zero {reg : Registry} {k : String}
    (h : containsKey reg k = false) : countKey reg k = 0 := by
  simp only [containsKey, List.any_eq_false] at h
  simp only [countKey, List.length_eq_zero, List.filter_eq_nil_iff]
  exact h

/-- Entry count distributes over registry concatenation. -/
theorem countKey_append (a b : Registry) (k : String) :
    countKey (a ++ b) k = countKey a k + countKey b k := by
  simp [countKey, List.filter_append]

/-- A single entry under a key counts once. -/
theorem countKey_single (k : String) (s : RecordingSession) :
    countKey [(k, s)] k = 1 := by
  simp [countKey]

/-- Appending an entry for a key makes the key present. -/
theorem containsKey_append_single (a : Registry) (k : String)
    (s : RecordingSession) : containsKey (a ++ [(k, s)]) k = true := by
  simp [containsKey]

/-- Deleting a key removes it from the dict. -/
theorem containsKey_eraseKey_self (reg : Registry) (k : String) :
    containsKey (eraseKey reg k) k = false := by
  simp only [containsKey, eraseKey, List.any_eq_false]
  intro kv hkv
  have h2 := (List.mem_filter.mp hkv).2
  simp only [bne_iff_ne, ne_eq] at h2
  simp [h2]

/-- Membership in the dict after a deletion. -/
theorem mem_eraseKey {kv : String × RecordingSession} {reg : Registry}
    {k : String} : kv ∈ eraseKey reg k ↔ kv ∈ reg ∧ kv.1 ≠ k := by
  simp [eraseKey, List.mem_filter]

/-- Membership after a sequence of deletions: the entry was present
before and its key is not among the deleted ones. -/
theorem mem_foldl_eraseKey {kv : String × RecordingSession} :
    ∀ (names : List String) (reg : Registry),
      kv ∈ names.foldl (fun acc s => eraseKey acc s) reg →
      kv ∈ reg ∧ kv.1 ∉ names := by
  intro names
  induction names with
  | nil =>
    intro reg h
    simpa using h
  | cons n ns ih =>
    intro reg h
    simp only [List.foldl_cons] at h
    obtain ⟨h1, h2⟩ := ih (eraseKey reg n) h
    rw [mem_eraseKey] at h1
    refine ⟨h1.1, ?_⟩
    simp only [List.mem_cons, not_or]
    exact ⟨h1.2, h2⟩

/-- start_recording fails fast, without touching the registry, when a
session for the channel already exists. -/
theorem start_recording_of_mem (r : StreamRecorder)
    (streamer quality template : String) (env : LaunchEnv) (clock : Clock)
    (h : containsKey r.active_recordings streamer = true) :
    start_recording r streamer quality template env clock = (false, r) := by
  simp [start_recording, h]

/-- Case analysis of start_recording: either it reports failure and
leaves the recorder untouched, or no session existed and it registers
exactly one new session for the channel at the end of the registry. -/
theorem start_recording_cases (r : StreamRecorder)
    (streamer quality template : String) (env : LaunchEnv) (clock : Clock) :
    start_recording r streamer quality template env clock = (false, r) ∨
    (containsKey r.active_recordings streamer = false ∧ ∃ pid,
      start_recording r streamer quality template env clock =
        (true, { r with active_recordings := r.active_recordings ++
          [(streamer, launchSession r streamer quality template clock pid)] })) := by
  obtain ⟨sl, sp, pa⟩ := env
  cases hc : containsKey r.active_recordings streamer with
  | true =>
    left
    simp [start_recording, hc]
  | false =>
    cases sl with
    | none =>
      left
      simp [start_recording, hc]
    | some p =>
      cases sp with
      | fileNotFound =>
        left
        simp [start_recording, hc]
      | permissionDenied =>
        left
        simp [start_recording, hc]
      | otherError =>
        left
        simp [start_recording, hc]
      | ok pid =>
        cases pa with
        | some code =>
          left
          simp [start_recording, hc]
        | none =>
          right
          refine ⟨rfl, pid, ?_⟩
          simp [start_recording, hc]

/-- A list is a prefix of itself followed by anything. -/
theorem isPrefixOf_self_append (l t : List Char) :
    l.isPrefixOf (l ++ t) = true := by
  induction l with
  | nil => simp [List.isPrefixOf]
  | cons c cs ih => simp [List.isPrefixOf, ih]

/-- The scan copies verbatim any leading segment none of whose characters
equals the first character of the pattern. -/
theorem replaceL_append_of_head_notin (h0 : Char) (old new xs ys : List Char)
    (hh : ∀ c ∈ xs, c ≠ h0) :
    replaceL (h0 :: old) new (xs ++ ys) = xs ++ replaceL (h0 :: old) new ys := by
  induction xs with
  | nil => simp
  | cons c xs ih =>
    have hc : c ≠ h0 := hh c (List.mem_cons_self c xs)
    rw [List.cons_append, replaceL_cons, if_neg]
    · rw [ih (fun a ha => hh a (List.mem_cons_of_mem c ha))]
      rfl
    · rintro ⟨-, hpre⟩
      simp only [List.isPrefixOf] at hpre
      have : h0 = c := by
        have hb := (Bool.and_eq_true _ _).mp hpre
        exact (beq_iff_eq).mp hb.1
      exact hc this.symm

/-- A string none of whose characters equals the first character of the
pattern is left unchanged by the scan. -/
theorem replaceL_of_no_head (h0 : Char) (old new s : List Char)
    (hh : ∀ c ∈ s, c ≠ h0) :
    replaceL (h0 :: old) new s = s := by
  have h := replaceL_append_of_head_notin h0 old new s [] hh
  simpa [replaceL_nil] using h

/-- A string with no occurrence of the pattern at any position is left
unchanged by the scan. -/
theorem replaceL_of_no_match (old new s : List Char)
    (h : ∀ n, n < s.length → old.isPrefixOf (s.drop n) = false) :
    replaceL old new s = s := by
  induction s with
  | nil => rfl
  | cons c rest ih =>
    rw [replaceL_cons, if_neg]
    · rw [ih]
      intro n hn
      have hs := h (n + 1) (by simpa using Nat.succ_lt_succ hn)
      simpa using hs
    · rintro ⟨-, hpre⟩
      have hs := h 0 (by simp)
      simp only [List.drop_zero] at hs
      rw [hs] at hpre
      exact Bool.false_ne_true hpre

/-- The scan replaces the pattern when the subject starts with it, and
resumes past the replacement without rescanning it. -/
theorem replaceL_append_match (old new ys : List Char) (hne : old ≠ []) :
    replaceL old new (old ++ ys) = new ++ replaceL old new ys := by
  cases old with
  | nil => exact absurd rfl hne
  | cons o os =>
    rw [List.cons_append, replaceL_cons, if_pos]
    · have hdrop : (os ++ ys).drop ((o :: os).length - 1) = ys := by
        simp only [List.length_cons, Nat.add_sub_cancel]
        exact List.drop_left os ys
      rw [hdrop]
    · exact ⟨by simp, by rw [← List.cons_append]; exact isPrefixOf_self_append (o :: os) ys⟩

/-- The opening-brace character that begins every placeholder. -/
def openBrace : Char := Char.ofNat 123

/-- True when the string contains no opening brace, so that no
placeholder pattern can match anywhere inside it. Holds of every string
the recorder's strftime calls can produce. -/
def noBrace (s : String) : Bool :=
  s.data.all (fun c => c != openBrace)

/-- Restatement of noBrace as a membership property. -/
theorem noBrace_spec {s : String} (h : noBrace s = true) :
    ∀ c ∈ s.data, c ≠ openBrace := by
  simp only [noBrace, List.all_eq_true, bne_iff_ne, ne_eq] at h
  exact h

/-- The underlying character list of pyReplace. -/
theorem pyReplace_data (s old new : String) :
    (pyReplace s old new).data = replaceL old.data new.data s.data := rfl

/-- String concatenation concatenates the underlying character lists. -/
theorem string_data_append (a b : String) :
    (a ++ b).data = a.data ++ b.data := by
  cases a
  cases b
  rfl

/-- Strings with the same underlying character list are equal. -/
theorem string_eq_of_data (a b : String) (h : a.data = b.data) : a = b := by
  cases a
  cases b
  exact congrArg String.mk h

/-- Fixture: a recorder with empty registry. -/
def r0 : StreamRecorder :=
  { recordings_dir := "recordings", logs_dir := "logs", active_recordings := [] }

/-- Fixture: a launch environment where everything goes right: streamlink
is on PATH, Popen returns pid 7, and the process is still running when
polled after the start-up sleep. -/
def env0 : LaunchEnv :=
  { streamlink_path := some "/usr/bin/streamlink"
    spawn := SpawnResult.ok 7
    poll_after_start := none }

/-- Fixture: a frozen wall clock. -/
def clock0 : Clock :=
  { date := "2024-01-02", time := "03-04-05", timestamp := "1704164645", now := 0 }

/-- Fixture: one session tracking process 1. -/
def sess1 : RecordingSession :=
  { process := 1, output_path := "recordings/alice.mp4"
    log_path := "logs/alice.log", start_time := 0, quality := "best" }

/-- Fixture: a recorder with one session registered for alice. -/
def r1 : StreamRecorder :=
  { recordings_dir := "recordings", logs_dir := "logs"
    active_recordings := [("alice", sess1)] }

/-- C1: for every channel key c, after start(c, quality, template)
returns true exactly one session is registered for c, and a second
start(c, ...) issued before any stop(c) returns false and leaves exactly
that one session registered. -/
theorem start_no_second_session
    (r : StreamRecorder) (c quality template : String) (env : LaunchEnv)
    (clock : Clock) (quality2 template2 : String) (env2 : LaunchEnv)
    (clock2 : Clock)
    (h : (start_recording r c quality template env clock).1 = true) :
    countKey (start_recording r c quality template env clock).2.active_recordings c = 1 ∧
    (start_recording (start_recording r c quality template env clock).2
      c quality2 template2 env2 clock2).1 = false ∧
    (start_recording (start_recording r c quality template env clock).2
      c quality2 template2 env2 clock2).2 =
      (start_recording r c quality template env clock).2 := by
  rcases start_recording_cases r c quality template env clock with heq | ⟨hc, pid, heq⟩
  · rw [heq] at h
    simp at h
  · rw [heq]
    have hcount : countKey (r.active_recordings ++
        [(c, launchSession r c quality template clock pid)]) c = 1 := by
      rw [countKey_append, countKey_eq_zero hc, countKey_single]
    have hmem : containsKey (r.active_recordings ++
        [(c, launchSession r c quality template clock pid)]) c = true :=
      containsKey_append_single _ _ _
    have h2 := start_recording_of_mem
      { r with active_recordings := r.active_recordings ++
        [(c, launchSession r c quality template clock pid)] }
      c quality2 template2 env2 clock2 hmem
    exact ⟨hcount, by rw [h2], by rw [h2]⟩

/-- Witness for C1 at a concrete recorder, channel and environment. -/
theorem start_no_second_session_witness :
    countKey (start_recording r0 "alice" "best" "{streamer}_{date}_{time}.mp4"
      env0 clock0).2.active_recordings "alice" = 1 ∧
    (start_recording (start_recording r0 "alice" "best"
        "{streamer}_{date}_{time}.mp4" env0 clock0).2
      "alice" "720p" "{streamer}.mp4" env0 clock0).1 = false ∧
    (start_recording (start_recording r0 "alice" "best"
        "{streamer}_{date}_{time}.mp4" env0 clock0).2
      "alice" "720p" "{streamer}.mp4" env0 clock0).2 =
      (start_recording r0 "alice" "best" "{streamer}_{date}_{time}.mp4"
        env0 clock0).2 :=
  start_no_second_session r0 "alice" "best" "{streamer}_{date}_{time}.mp4"
    env0 clock0 "720p" "{streamer}.mp4" env0 clock0 (by decide)

/-- C2: for every channel with a registered session, stop(c) returns
true both on the graceful path (process exits within the 10-unit wait
timeout) and on the timeout path (forceful group kill is escalated to),
and in both cases the session for c is removed from the registry. -/
theorem stop_true_removes_session
    (outcome : Nat → StopOutcome) (r : StreamRecorder) (c : String)
    (sess : RecordingSession)
    (hs : lookupKey r.active_recordings c = some sess)
    (ho : outcome sess.process = StopOutcome.graceful ∨
      outcome sess.process = StopOutcome.timeout) :
    (stop_recording outcome r c).ok = true ∧
    containsKey (stop_recording outcome r c).state.active_recordings c = false := by
  rcases ho with h | h <;>
    simp [stop_recording, hs, h, containsKey_eraseKey_self]

/-- Witness for C2 on the timeout-then-kill path. -/
theorem stop_true_removes_session_witness :
    (stop_recording (fun _ => StopOutcome.timeout) r1 "alice").ok = true ∧
    containsKey (stop_recording (fun _ => StopOutcome.timeout) r1
      "alice").state.active_recordings "alice" = false :=
  stop_true_removes_session (fun _ => StopOutcome.timeout) r1 "alice" sess1
    (by decide) (Or.inr rfl)

/-- C9: if delivering the signal or waiting raises any error other than
the wait timeout, stop(c) returns false and the session stays in the
registry, even though a session exists; the dead session is evicted only
later, for instance by isRecording. -/
theorem stop_error_keeps_session
    (outcome : Nat → StopOutcome) (poll : Nat → Option Int)
    (r : StreamRecorder) (c : String) (sess : RecordingSession) (code : Int)
    (hs : lookupKey r.active_recordings c = some sess)
    (ho : outcome sess.process = StopOutcome.error)
    (hp : poll sess.process = some code) :
    (stop_recording outcome r c).ok = false ∧
    (stop_recording outcome r c).state = r ∧
    containsKey r.active_recordings c = true ∧
    (is_recording poll r c).1 = false ∧
    containsKey (is_recording poll r c).2.active_recordings c = false := by
  refine ⟨?_, ?_, containsKey_of_lookup hs, ?_, ?_⟩ <;>
    simp [stop_recording, is_recording, hs, ho, hp, containsKey_eraseKey_self]

/-- Witness for C9: the process group of session 1 is already gone. -/
theorem stop_error_keeps_session_witness :
    (stop_recording (fun _ => StopOutcome.error) r1 "alice").ok = false ∧
    (stop_recording (fun _ => StopOutcome.error) r1 "alice").state = r1 ∧
    containsKey r1.active_recordings "alice" = true ∧
    (is_recording (fun _ => some 1) r1 "alice").1 = false ∧
    containsKey (is_recording (fun _ => some 1) r1
      "alice").2.active_recordings "alice" = false :=
  stop_error_keeps_session (fun _ => StopOutcome.error) (fun _ => some 1)
    r1 "alice" sess1 1 (by decide) rfl rfl

/-- C3: self-healing eviction. isRecording(c) returns false and removes
the session once the tracked process has exited, even if stop was never
called; and listActive never returns an entry whose process has exited
at call time. -/
theorem self_healing_eviction
    (poll : Nat → Option Int) (r r2 : StreamRecorder) (c : String)
    (sess : RecordingSession) (code : Int)
    (hs : lookupKey r.active_recordings c = some sess)
    (hp : poll sess.process = some code) :
    (is_recording poll r c).1 = false ∧
    containsKey (is_recording poll r c).2.active_recordings c = false ∧
    (get_active_recordings poll r2).1.all
      (fun kv => (poll kv.2.process).isNone) = true := by
  refine ⟨?_, ?_, ?_⟩
  · simp [is_recording, hs, hp]
  · simp [is_recording, hs, hp, containsKey_eraseKey_self]
  · simp only [List.all_eq_true]
    intro kv hkv
    simp only [get_active_recordings] at hkv
    obtain ⟨hmem, hnot⟩ := mem_foldl_eraseKey _ _ hkv
    rcases hq : poll kv.2.process with _ | code2
    · simp
    · exfalso
      apply hnot
      exact List.mem_map.mpr
        ⟨kv, List.mem_filter.mpr ⟨hmem, by simp [hq]⟩, rfl⟩

/-- Witness for C3: the tracked process of session 1 has exited with
code 0, and a second registry holding the same dead session. -/
theorem self_healing_eviction_witness :
    (is_recording (fun _ => some 0) r1 "alice").1 = false ∧
    containsKey (is_recording (fun _ => some 0) r1
      "alice").2.active_recordings "alice" = false ∧
    (get_active_recordings (fun _ => some 0) r1).1.all
      (fun kv => ((fun _ => some 0) kv.2.process).isNone) = true :=
  self_healing_eviction (fun _ => some 0) r1 r1 "alice" sess1 0 (by decide) rfl

/-- C6: launch-failure atomicity. With no session registered for c, if
the launch fails because streamlink is missing from PATH, Popen raises
FileNotFoundError or PermissionError, or the process exits immediately
after spawning, then start(c, ...) returns false and leaves the registry
unchanged. -/
theorem start_launch_failure_atomic
    (r : StreamRecorder) (c quality template : String) (env : LaunchEnv)
    (clock : Clock)
    (hno : containsKey r.active_recordings c = false)
    (hfail : env.streamlink_path = none ∨
      env.spawn = SpawnResult.fileNotFound ∨
      env.spawn = SpawnResult.permissionDenied ∨
      env.poll_after_start.isSome = true) :
    (start_recording r c quality template env clock).1 = false ∧
    (start_recording r c quality template env clock).2 = r := by
  obtain ⟨sl, sp, pa⟩ := env
  rcases hfail with h | h | h | h
  · subst h
    simp [start_recording, hno]
  · subst h
    cases sl <;> simp [start_recording, hno]
  · subst h
    cases sl <;> simp [start_recording, hno]
  · rcases pa with _ | code
    · simp at h
    · cases sl <;> cases sp <;> simp [start_recording, hno]

/-- Witness for C6: streamlink missing from PATH. -/
theorem start_launch_failure_atomic_witness :
    (start_recording r0 "alice" "best" "{streamer}.mp4"
      { streamlink_path := none, spawn := SpawnResult.ok 7,
        poll_after_start := none } clock0).1 = false ∧
    (start_recording r0 "alice" "best" "{streamer}.mp4"
      { streamlink_path := none, spawn := SpawnResult.ok 7,
        poll_after_start := none } clock0).2 = r0 :=
  start_launch_failure_atomic r0 "alice" "best" "{streamer}.mp4"
    { streamlink_path := none, spawn := SpawnResult.ok 7,
      poll_after_start := none }
    clock0 (by decide) (Or.inl rfl)

/-- Fixtures for the three-session stopAll scenario: sessions on
processes 1, 2 and 3, where process 2 will ignore the graceful signal
and time out. -/
def sessA : RecordingSession :=
  { process := 1, output_path := "recordings/a.mp4"
    log_path := "logs/a.log", start_time := 0, quality := "best" }

/-- Second fixture session, the one that will fail to stop gracefully. -/
def sessB : RecordingSession :=
  { process := 2, output_path := "recordings/b.mp4"
    log_path := "logs/b.log", start_time := 0, quality := "best" }

/-- Third fixture session. -/
def sessC : RecordingSession :=
  { process := 3, output_path := "recordings/c.mp4"
    log_path := "logs/c.log", start_time := 0, quality := "best" }

/-- Fixture: a recorder with three active sessions. -/
def r3 : StreamRecorder :=
  { recordings_dir := "recordings", logs_dir := "logs"
    active_recordings := [("a", sessA), ("b", sessB), ("c", sessC)] }

/-- Fixture: stop oracle under which process 2 times out and is
force-killed while the others exit gracefully. -/
def outcome3 : Nat → StopOutcome :=
  fun p => if p == 2 then StopOutcome.timeout else StopOutcome.graceful

/-- The attempt trace of stop_all_recordings lists exactly the snapshot
of keys, whatever the individual stop results are. -/
theorem stop_all_aux_trace (outcome : Nat → StopOutcome) :
    ∀ (ks : List String) (acc : StreamRecorder × List (String × Bool)),
      ((ks.foldl (fun acc s =>
          let res := stop_recording outcome acc.1 s
          (res.state, acc.2 ++ [(s, res.ok)])) acc).2).map Prod.fst =
        acc.2.map Prod.fst ++ ks := by
  intro ks
  induction ks with
  | nil =>
    intro acc
    simp
  | cons k ks ih =>
    intro acc
    simp only [List.foldl_cons]
    rw [ih]
    simp

/-- C7: stopAll attempts to stop every currently tracked session and
never aborts early on an individual stop failure: the attempted keys are
exactly the tracked keys. In the scenario with three active sessions
where the middle one fails to stop gracefully (its wait times out and it
is force-killed), stopAll leaves zero registered sessions and all three
stop calls report success. -/
theorem stop_all_attempts_every_key :
    (∀ (outcome : Nat → StopOutcome) (r : StreamRecorder),
      ((stop_all_recordings outcome r).2).map Prod.fst =
        r.active_recordings.map Prod.fst) ∧
    (stop_all_recordings outcome3 r3).1.active_recordings = [] ∧
    (stop_all_recordings outcome3 r3).2 =
      [("a", true), ("b", true), ("c", true)] := by
  refine ⟨?_, by decide, by decide⟩
  intro outcome r
  have h := stop_all_aux_trace outcome (r.active_recordings.map Prod.fst) (r, [])
  simpa [stop_all_recordings] using h

/-- Fixture: the monitor environment for the four-tick scenario: a fresh
launch succeeds with pid 7, every stop is graceful, the spawned process
never exits on its own, and the configured default quality is best. -/
def env4 : MonitorEnv :=
  { launch := env0
    outcome := fun _ => StopOutcome.graceful
    poll := fun _ => none
    default_quality := "best"
    filename_template := "{streamer}_{date}_{time}.mp4"
    clock := clock0 }

/-- C4: on each polling tick, for each watched channel, online and not
recording triggers start with the configured default quality; online and
already recording triggers no supervisor call; offline and recording
triggers stop; offline and not recording triggers no call. For
watch-list [alice] and liveness [offline, online, online, offline],
tick 2 triggers start(alice), tick 3 no call, tick 4 stop(alice). -/
theorem monitor_tick_step_relation :
    (∀ (live : Bool) (env : MonitorEnv) (r : StreamRecorder) (s : String),
      (monitor_channel live env r s).2 =
        if live then
          (if (is_recording env.poll r s).1 then []
            else [MonitorCall.start s env.default_quality])
        else
          (if (is_recording env.poll r s).1 then [MonitorCall.stop s]
            else [])) ∧
    (monitor_run env4 ["alice"]
        [fun _ => false, fun _ => true, fun _ => true, fun _ => false]
        r0).2 =
      [[], [MonitorCall.start "alice" "best"], [],
        [MonitorCall.stop "alice"]] := by
  refine ⟨?_, by decide⟩
  intro live env r s
  cases live <;> by_cases h : (is_recording env.poll r s).1 = true <;>
    simp [monitor_channel, h]

/-- C5 counterexample: with the default 60-unit polling interval and the
running flag already cleared, the monitor loop is still inside
time.sleep five seconds after the sleep began, and it reaches the loop
head only after the full 61 steps: the flag is not consulted during the
sleep, so shutdown latency is not bounded by roughly one second. -/
theorem monitor_sleep_uninterruptible :
    monRun 60 false 5 (MonState.sleeping 60) = MonState.sleeping 55 ∧
    monRun 60 false 5 (MonState.sleeping 60) ≠ MonState.halted ∧
    monRun 60 false 61 (MonState.sleeping 60) = MonState.top := by
  decide

/-- C5 amended: the running flag is observed at the top of each loop
iteration only; the inter-tick time.sleep(check_interval) is a single
uninterruptible sleep, so once the flag is false the loop halts within
the remaining sleep plus two steps — a latency bounded by the full
polling interval, not by one second. -/
theorem monitor_halts_within_interval :
    ∀ (n check_interval : Nat),
      monRun check_interval false (n + 2) (MonState.sleeping n) =
        MonState.halted ∧
      monRun check_interval false 1 MonState.top = MonState.halted := by
  intro n ci
  constructor
  · induction n with
    | zero => rfl
    | succ m ih => exact ih
  · rfl

/-- Substituting the date into the partially-expanded default template:
the scan skips the verbatim head, expands the single date placeholder,
and leaves the rest untouched. -/
theorem date_step (d : List Char) :
    replaceL ("{date}" : String).data d ("foo_{date}_{time}.mp4" : String).data =
      ("foo_" : String).data ++ (d ++ ("_{time}.mp4" : String).data) := by
  have h1 : ("foo_{date}_{time}.mp4" : String).data =
      ("foo_" : String).data ++
        (("{date}" : String).data ++ ("_{time}.mp4" : String).data) := by
    decide
  have h2 : ("{date}" : String).data = openBrace :: ("date\x7d" : String).data := by
    decide
  rw [h1, h2]
  rw [replaceL_append_of_head_notin _ _ _ _ _ (by decide)]
  rw [replaceL_append_match _ _ _ (by simp)]
  rw [replaceL_of_no_match _ _ _ (by decide)]

/-- Substituting the streamer name into the default template. -/
theorem streamer_step :
    replaceL ("{streamer}" : String).data ("foo" : String).data
        ("{streamer}_{date}_{time}.mp4" : String).data =
      ("foo_{date}_{time}.mp4" : String).data := by
  decide

/-- Substituting the time into the date-expanded default template: the
scan skips the verbatim head and the already-substituted date (which
contains no opening brace), expands the time placeholder, and leaves the
extension untouched. -/
theorem time_step (d t : List Char) (hd : ∀ c ∈ d, c ≠ openBrace) :
    replaceL ("{time}" : String).data t
        (("foo_" : String).data ++ (d ++ ("_{time}.mp4" : String).data)) =
      ("foo_" : String).data ++
        (d ++ (("_" : String).data ++ (t ++ (".mp4" : String).data))) := by
  have h2 : ("{time}" : String).data =
      openBrace :: ("time\x7d" : String).data := by
    decide
  have h3 : ("_{time}.mp4" : String).data =
      ("_" : String).data ++
        (("{time}" : String).data ++ (".mp4" : String).data) := by
    decide
  rw [h3, h2]
  rw [replaceL_append_of_head_notin _ _ _ _ _ (by decide)]
  rw [replaceL_append_of_head_notin _ _ _ _ _ hd]
  rw [replaceL_append_of_head_notin _ _ _ _ _ (by decide)]
  rw [replaceL_append_match _ _ _ (by simp)]
  rw [replaceL_of_no_match _ _ _ (by decide)]

/-- The timestamp placeholder does not occur in the fully-expanded
default template, so the last substitution pass leaves it unchanged. -/
theorem timestamp_step (d t ts : List Char)
    (hd : ∀ c ∈ d, c ≠ openBrace) (ht : ∀ c ∈ t, c ≠ openBrace) :
    replaceL ("{timestamp}" : String).data ts
        (("foo_" : String).data ++
          (d ++ (("_" : String).data ++ (t ++ (".mp4" : String).data)))) =
      ("foo_" : String).data ++
        (d ++ (("_" : String).data ++ (t ++ (".mp4" : String).data))) := by
  have h2 : ("{timestamp}" : String).data =
      openBrace :: ("timestamp\x7d" : String).data := by
    decide
  rw [h2]
  rw [replaceL_append_of_head_notin _ _ _ _ _ (by decide)]
  rw [replaceL_append_of_head_notin _ _ _ _ _ hd]
  rw [replaceL_append_of_head_notin _ _ _ _ _ (by decide)]
  rw [replaceL_append_of_head_notin _ _ _ _ _ ht]
  rw [replaceL_of_no_match _ _ _ (by decide)]

/-- C8: filename generation is deterministic given a fixed clock. For
the default template and streamer foo the output is the literal head,
the clock's date, an underscore, the clock's time and the extension —
provided the rendered date and time contain no opening brace, as is true
of every strftime output in the formats the recorder uses. Two
generations under the same clock and inputs are identical. -/
theorem filename_generation_deterministic (clock : Clock)
    (hd : noBrace clock.date = true) (ht : noBrace clock.time = true) :
    _generate_filename clock "foo" "{streamer}_{date}_{time}.mp4" =
      "foo_" ++ clock.date ++ "_" ++ clock.time ++ ".mp4" ∧
    _generate_filename clock "foo" "{streamer}_{date}_{time}.mp4" =
      _generate_filename clock "foo" "{streamer}_{date}_{time}.mp4" := by
  refine ⟨?_, rfl⟩
  apply string_eq_of_data
  simp only [_generate_filename, pyReplace_data]
  rw [streamer_step, date_step, time_step _ _ (noBrace_spec hd),
    timestamp_step _ _ _ (noBrace_spec hd) (noBrace_spec ht)]
  simp [string_data_append, List.append_assoc]

/-- Witness for C8 at the frozen fixture clock. -/
theorem filename_generation_deterministic_witness :
    _generate_filename clock0 "foo" "{streamer}_{date}_{time}.mp4" =
      "foo_" ++ clock0.date ++ "_" ++ clock0.time ++ ".mp4" ∧
    _generate_filename clock0 "foo" "{streamer}_{date}_{time}.mp4" =
      _generate_filename clock0 "foo" "{streamer}_{date}_{time}.mp4" :=
  filename_generation_deterministic clock0 (by decide) (by decide)

/-- Substituting a channel literally named like the date placeholder into
the default template: after this first pass the template holds two date
placeholders. -/
theorem streamer_cascade_step :
    replaceL ("{streamer}" : String).data ("{date}" : String).data
        ("{streamer}_{date}_{time}.mp4" : String).data =
      ("{date}_{date}_{time}.mp4" : String).data := by
  decide

/-- The date pass replaces both occurrences of the date placeholder —
the one the channel name introduced and the template's own. -/
theorem date_cascade_step (d : List Char) :
    replaceL ("{date}" : String).data d
        ("{date}_{date}_{time}.mp4" : String).data =
      d ++ (("_" : String).data ++ (d ++ ("_{time}.mp4" : String).data)) := by
  have h1 : ("{date}_{date}_{time}.mp4" : String).data =
      ("{date}" : String).data ++
        (("_" : String).data ++
          (("{date}" : String).data ++ ("_{time}.mp4" : String).data)) := by
    decide
  have h2 : ("{date}" : String).data = openBrace :: ("date\x7d" : String).data := by
    decide
  rw [h1, h2]
  rw [replaceL_append_match _ _ _ (by simp)]
  rw [replaceL_append_of_head_notin _ _ _ _ _ (by decide)]
  rw [replaceL_append_match _ _ _ (by simp)]
  rw [replaceL_of_no_match _ _ _ (by decide)]

/-- The time pass on the doubly-date-expanded template. -/
theorem time_cascade_step (d t : List Char) (hd : ∀ c ∈ d, c ≠ openBrace) :
    replaceL ("{time}" : String).data t
        (d ++ (("_" : String).data ++ (d ++ ("_{time}.mp4" : String).data))) =
      d ++ (("_" : String).data ++
        (d ++ (("_" : String).data ++ (t ++ (".mp4" : String).data)))) := by
  have h2 : ("{time}" : String).data =
      openBrace :: ("time\x7d" : String).data := by
    decide
  have h3 : ("_{time}.mp4" : String).data =
      ("_" : String).data ++
        (("{time}" : String).data ++ (".mp4" : String).data) := by
    decide
  rw [h3, h2]
  rw [replaceL_append_of_head_notin _ _ _ _ _ hd]
  rw [replaceL_append_of_head_notin _ _ _ _ _ (by decide)]
  rw [replaceL_append_of_head_notin _ _ _ _ _ hd]
  rw [replaceL_append_of_head_notin _ _ _ _ _ (by decide)]
  rw [replaceL_append_match _ _ _ (by simp)]
  rw [replaceL_of_no_match _ _ _ (by decide)]

/-- The timestamp pass leaves the fully-expanded cascade result
unchanged. -/
theorem timestamp_cascade_step (d t ts : List Char)
    (hd : ∀ c ∈ d, c ≠ openBrace) (ht : ∀ c ∈ t, c ≠ openBrace) :
    replaceL ("{timestamp}" : String).data ts
        (d ++ (("_" : String).data ++
          (d ++ (("_" : String).data ++ (t ++ (".mp4" : String).data))))) =
      d ++ (("_" : String).data ++
        (d ++ (("_" : String).data ++ (t ++ (".mp4" : String).data)))) := by
  have h2 : ("{timestamp}" : String).data =
      openBrace :: ("timestamp\x7d" : String).data := by
    decide
  rw [h2]
  rw [replaceL_append_of_head_notin _ _ _ _ _ hd]
  rw [replaceL_append_of_head_notin _ _ _ _ _ (by decide)]
  rw [replaceL_append_of_head_notin _ _ _ _ _ hd]
  rw [replaceL_append_of_head_notin _ _ _ _ _ (by decide)]
  rw [replaceL_append_of_head_notin _ _ _ _ _ ht]
  rw [replaceL_of_no_match _ _ _ (by decide)]

/-- C10: template substitution is sequential whole-string replacement in
the fixed order streamer, date, time, timestamp; every occurrence of
each placeholder is replaced, and placeholder tokens contained in the
substituted channel name are expanded by the later passes: a channel
named like the date placeholder yields the clock's date in the filename,
not the literal channel name. -/
theorem template_substitution_cascade (clock : Clock)
    (hd : noBrace clock.date = true) (ht : noBrace clock.time = true) :
    _generate_filename clock "{date}" "{streamer}_{date}_{time}.mp4" =
      clock.date ++ "_" ++ clock.date ++ "_" ++ clock.time ++ ".mp4" := by
  apply string_eq_of_data
  simp only [_generate_filename, pyReplace_data]
  rw [streamer_cascade_step, date_cascade_step,
    time_cascade_step _ _ (noBrace_spec hd),
    timestamp_cascade_step _ _ _ (noBrace_spec hd) (noBrace_spec ht)]
  simp [string_data_append, List.append_assoc]

/-- Witness for C10 at the frozen fixture clock. -/
theorem template_substitution_cascade_witness :
    _generate_filename clock0 "{date}" "{streamer}_{date}_{time}.mp4" =
      clock0.date ++ "_" ++ clock0.date ++ "_" ++ clock0.time ++ ".mp4" :=
  template_substitution_cascade clock0 (by decide) (by decide)

end TwitRec
